import Mathlib

/-!
Verification development for the load-testing core of ollama_tester.py.

The Python source is shallowly embedded as follows.

Request Executor, chat_stream (lines 81-109): one HTTP attempt.  The transport
behaviour of the attempt is abstracted by TransportResult: the request either
produced a response object with a status code and an elapsed duration, raised
httpx.RequestError (httpx.TimeoutException is a subclass, hence the Boolean
flag recording whether the error was a local timeout), or raised some other
exception that escapes chat_stream.  chat_stream returns the response for the
first case, None for every RequestError (both arms of the isinstance test at
lines 105-108 fall through to the same return None at line 109), and
propagates the exception otherwise.  Floating point durations are modelled by
rational numbers.

Metrics Aggregator, process_response (lines 111-134): folds one task value
into the mutable metrics dictionary, which is modelled by the Metrics
structure with the same field names.

Load Controller, make_requests (lines 136-224): modelled as a deterministic
functional simulation driven by an oracle Env.  Real time is abstracted to a
logical clock (a natural number) that advances by one at every task creation
and at the sleep ending each payload cycle; the while condition at line 162
reads the clock: the stop event is set at every instant from Env.stopAt on,
and the deadline test is clock < Env.endTime.  The scheduler choices of
asyncio are abstracted by the oracle: Env.doneFlag chooses which in-flight
tasks the k-th asyncio.wait call (line 166) reports as done; FIRST_COMPLETED
returns a nonempty done set, so when the oracle marks nothing done the model
forces the first in-flight task to complete.  Env.finalDone chooses which
tasks are already done when the loop at line 177 runs.  The done set handed
to process_response in the background at line 171 is folded into the metrics
at once: awaiting an already finished task never suspends, so every such
background task runs to completion at the next suspension point of
make_requests and in particular before the totals at line 188 are read, and
the counter totals do not depend on the interleaving because every branch of
process_response performs exactly one increment and list append order is
irrelevant to the aggregate statistics.  The recursion is bounded by a fuel
argument instantiated with Env.endTime; since each cycle advances the clock
by at least one from zero, the fuel is exhausted exactly when the deadline
test fails, so the fuel never cuts a run short.

The summary computation at lines 188-224 is the function summarize, with the
division by the configured test duration (self.test_duration at line 195)
taken as an explicit rational argument.

Run Orchestrator, run / run_tests (lines 226-272): one controller per target,
combined with asyncio.gather at line 241, which surfaces the exception of any
failing controller and discards every result.  A controller that raises (for
example the AsyncClient setup at line 161 failing, or the ValueError that
asyncio.wait raises on an empty task set) is modelled by the setup field of
TargetSpec holding an abstract exception code; target names and exception
payloads are abstracted to numbers.  Request payload bodies are opaque: the
list of payloads is kept (the for loop at line 163 iterates it) but a body
never influences the classified outcome, which the oracle assigns per request
index, so payload entries are modelled by Unit.
-/

/-- A returned HTTP response: status code and elapsed request duration
(httpx Response.status_code and Response.elapsed.total_seconds()). -/
structure Resp where
  status_code : Nat
  elapsed : ℚ
deriving DecidableEq

/-- Transport-level behaviour of one request attempt, the abstraction of what
await client.request does at lines 95-100. -/
inductive TransportResult where
  /-- The request returned a response object. -/
  | response (status : Nat) (elapsed : ℚ)
  /-- httpx.RequestError was raised; the flag records whether it was the
  httpx.TimeoutException subclass, i.e. a local per-request timeout. -/
  | requestError (isTimeout : Bool)
  /-- Some exception other than httpx.RequestError escaped the attempt. -/
  | raised
deriving DecidableEq

/-- chat_stream, lines 81-109: returns the response object on completion,
None (modelled by Except.ok none) for every httpx.RequestError including
timeouts, and lets any other exception propagate (Except.error). -/
def chat_stream : TransportResult → Except Unit (Option Resp)
  | .response s e => .ok (some ⟨s, e⟩)
  | .requestError _ => .ok none
  | .raised => .error ()

/-- The metrics dictionary initialised at lines 153-158. -/
structure Metrics where
  successful_requests : Nat
  error_requests : Nat
  canceled_requests : Nat
  response_times : List ℚ
deriving DecidableEq

/-- Lines 153-158: all counters zero, no latency samples. -/
def initMetrics : Metrics := ⟨0, 0, 0, []⟩

/-- process_response, lines 111-134, applied to the value of an awaited
chat_stream task: a 200 response increments the success counter and appends
its elapsed duration; any other response increments the error counter; a None
result increments the canceled counter (lines 126-127); an exception raised
by the task is absorbed by the except clause at lines 132-134 and counted as
an error.  The asyncio.CancelledError clause at lines 130-131 is not reached
in the model because line 185 filters cancelled tasks out before
process_response is awaited on them. -/
def process_response (result : Except Unit (Option Resp)) (m : Metrics) : Metrics :=
  match result with
  | .ok (some r) =>
      if r.status_code = 200 then
        { m with successful_requests := m.successful_requests + 1,
                 response_times := m.response_times ++ [r.elapsed] }
      else
        { m with error_requests := m.error_requests + 1 }
  | .ok none => { m with canceled_requests := m.canceled_requests + 1 }
  | .error _ => { m with error_requests := m.error_requests + 1 }

/-- The latency samples that processing one task value appends, read off the
branch at lines 121-123: exactly the elapsed duration of a status 200
response, nothing for any other value. -/
def successLatency : Except Unit (Option Resp) → List ℚ
  | .ok (some r) => if r.status_code = 200 then [r.elapsed] else []
  | _ => []

/-- Total number of counter increments recorded in a metrics value; this is
also the quantity summed at lines 188-192. -/
def outcomeCount (m : Metrics) : Nat :=
  m.successful_requests + m.error_requests + m.canceled_requests

instance {ε α : Type} [DecidableEq ε] [DecidableEq α] : DecidableEq (Except ε α)
  | .error a, .error b =>
      if h : a = b then isTrue (by rw [h])
      else isFalse (by intro hh; cases hh; exact h rfl)
  | .error _, .ok _ => isFalse (by intro h; cases h)
  | .ok _, .error _ => isFalse (by intro h; cases h)
  | .ok a, .ok b =>
      if h : a = b then isTrue (by rw [h])
      else isFalse (by intro hh; cases hh; exact h rfl)

/-- One in-flight chat_stream task: its creation index and the value the task
produces if it runs to completion. -/
structure ReqTask where
  id : Nat
  res : Except Unit (Option Resp)
deriving DecidableEq

/-- Oracle driving one simulated run of make_requests: the transport result
of each request by creation index, the scheduler choice of which in-flight
tasks each asyncio.wait call reports done, which tasks are done when the
drain loop at line 177 runs, the logical instant from which the shared stop
event is set, and the logical deadline start_time + duration of line 152. -/
structure Env where
  transport : Nat → TransportResult
  doneFlag : Nat → Nat → Bool
  finalDone : Nat → Bool
  stopAt : Nat
  endTime : Nat

/-- Simulation state of make_requests: the metrics dictionary, the tasks
list, how many chat_stream tasks were created so far, the logical clock, and
how many asyncio.wait calls happened so far. -/
structure St where
  metrics : Metrics
  tasks : List ReqTask
  created : Nat
  clock : Nat
  waits : Nat
deriving DecidableEq

/-- Trace record of one task creation (line 173): the task index, the clock
at the start of its payload cycle, the clock at the moment of creation, and
the size of the tasks list right after the append. -/
structure Ev where
  taskId : Nat
  cycleStart : Nat
  time : Nat
  inflightAfter : Nat
deriving DecidableEq

/-- Lines 166-169: asyncio.wait with FIRST_COMPLETED splits the tasks list
into a done part and a pending part.  The oracle flags decide membership;
since FIRST_COMPLETED only returns once at least one task finished, the model
forces the first task done when the oracle marks none. -/
def splitTasks (isDone : Nat → Bool) (l : List ReqTask) : List ReqTask × List ReqTask :=
  if (l.filter fun t => isDone t.id).isEmpty then (l.take 1, l.drop 1)
  else (l.filter fun t => isDone t.id, l.filter fun t => ! isDone t.id)

/-- Lines 170-171: fold process_response over the done tasks. -/
def processList : List ReqTask → Metrics → Metrics
  | [], m => m
  | t :: ts, m => processList ts (process_response t.res m)

/-- The chat_stream task created at line 173 for request index n. -/
def newTask (env : Env) (n : Nat) : ReqTask :=
  ⟨n, chat_stream (env.transport n)⟩

/-- Append the new task (line 173); creating a task is a point where real
time passes, so the clock advances. -/
def pushTask (env : Env) (s : St) : St :=
  { s with tasks := s.tasks ++ [newTask env s.created],
           created := s.created + 1,
           clock := s.clock + 1 }

/-- Lines 164-171: when the tasks list has reached the user limit, wait for
at least one completion, keep the pending part and fold the done part into
the metrics; otherwise do nothing. -/
def spawnWait (users : Nat) (env : Env) (s : St) : St :=
  if users ≤ s.tasks.length then
    { s with tasks := (splitTasks (env.doneFlag s.waits) s.tasks).2,
             metrics := processList (splitTasks (env.doneFlag s.waits) s.tasks).1 s.metrics,
             waits := s.waits + 1 }
  else s

/-- One iteration of the for loop at lines 163-173: possibly wait for a slot,
then create the next chat_stream task, emitting one trace event. -/
def spawnOne (users : Nat) (env : Env) (cstart : Nat) (s : St) : St × Ev :=
  (pushTask env (spawnWait users env s),
   ⟨(spawnWait users env s).created, cstart, (spawnWait users env s).clock,
    (spawnWait users env s).tasks.length + 1⟩)

/-- The whole for loop at lines 163-173: one spawnOne per payload entry. -/
def spawnCycle (users : Nat) (env : Env) (cstart : Nat) : List Unit → St → St × List Ev
  | [], s => (s, [])
  | _ :: ps, s =>
      ((spawnCycle users env cstart ps (spawnOne users env cstart s).1).1,
       (spawnOne users env cstart s).2
         :: (spawnCycle users env cstart ps (spawnOne users env cstart s).1).2)

/-- The sleep at line 174 ending a cycle: the clock advances. -/
def bumpClock (s : St) : St :=
  { s with clock := s.clock + 1 }

/-- The while loop at lines 162-174.  The condition reads the stop event and
the clock exactly as line 162 does, once per cycle.  The structural fuel is
instantiated with Env.endTime by make_requests; each cycle advances the clock
by at least one from zero, so fuel exhaustion coincides with the deadline
test failing and never cuts a run short. -/
def mainLoop (users : Nat) (env : Env) (payload : List Unit) : Nat → St → St × List Ev
  | 0, s => (s, [])
  | fuel + 1, s =>
      if s.clock < env.stopAt ∧ s.clock < env.endTime then
        ((mainLoop users env payload fuel
            (bumpClock (spawnCycle users env s.clock payload s).1)).1,
         (spawnCycle users env s.clock payload s).2
           ++ (mainLoop users env payload fuel
                (bumpClock (spawnCycle users env s.clock payload s).1)).2)
      else (s, [])

/-- Lines 176-180: for every task not yet done, request cancellation and
increment the canceled counter immediately. -/
def drainCancel (env : Env) : List ReqTask → Metrics → Metrics
  | [], m => m
  | t :: ts, m =>
      if env.finalDone t.id then drainCancel env ts m
      else drainCancel env ts { m with canceled_requests := m.canceled_requests + 1 }

/-- Lines 182-186: after waiting for everything, process every done task that
was not cancelled.  A chat_stream task whose cancellation was requested at
line 179 cannot suppress it (chat_stream only catches httpx.RequestError, and
asyncio.CancelledError is a BaseException outside that hierarchy), so the
tasks skipped here are exactly the ones counted by drainCancel. -/
def drainProcess (env : Env) : List ReqTask → Metrics → Metrics
  | [], m => m
  | t :: ts, m =>
      if env.finalDone t.id then drainProcess env ts (process_response t.res m)
      else drainProcess env ts m

/-- Lines 176-186 together: the drain phase. -/
def drain (env : Env) (s : St) : St :=
  { s with metrics := drainProcess env s.tasks (drainCancel env s.tasks s.metrics),
           tasks := [] }

/-- Lines 151-159: initial simulation state. -/
def initSt : St := ⟨initMetrics, [], 0, 0, 0⟩

/-- make_requests, lines 136-186: run the admission loop and then drain,
returning the final state and the trace of task creations. -/
def make_requests (users : Nat) (env : Env) (payload : List Unit) : St × List Ev :=
  ((drain env (mainLoop users env payload env.endTime initSt).1),
   (mainLoop users env payload env.endTime initSt).2)

/-- Sum of a list of rationals, for statistics.mean at line 200. -/
def listSum (l : List ℚ) : ℚ := l.foldl (fun a b => a + b) 0

/-- Python min over a nonempty list, zero on the empty list (the guard at
line 205 makes the empty case unreachable in the source). -/
def listMin : List ℚ → ℚ
  | [] => 0
  | x :: xs => xs.foldl min x

/-- Python max over a nonempty list, zero on the empty list. -/
def listMax : List ℚ → ℚ
  | [] => 0
  | x :: xs => xs.foldl max x

/-- The result dictionary returned at lines 216-224. -/
structure Summary where
  total_requests_sent : Nat
  requests_per_second : ℚ
  avg_response_time : ℚ
  min_response_time : ℚ
  max_response_time : ℚ
  error_percentage : ℚ
  canceled_requests : Nat
deriving DecidableEq

/-- Lines 188-224: reduce a finalized metrics value to the summary record.
The throughput divisor is self.test_duration, the configured test duration,
passed here explicitly; every conditional mirrors the corresponding Python
conditional expression (a Python list is truthy exactly when nonempty). -/
def summarize (test_duration : ℚ) (m : Metrics) : Summary :=
  { total_requests_sent :=
      m.successful_requests + m.error_requests + m.canceled_requests,
    requests_per_second :=
      if m.response_times = [] then 0
      else (m.successful_requests : ℚ) / test_duration,
    avg_response_time :=
      if m.response_times = [] then 0
      else listSum m.response_times / (m.response_times.length : ℚ),
    min_response_time :=
      if m.response_times = [] then 0 else listMin m.response_times,
    max_response_time :=
      if m.response_times = [] then 0 else listMax m.response_times,
    error_percentage :=
      if 0 < m.successful_requests + m.error_requests + m.canceled_requests
      then (m.error_requests : ℚ)
             / ((m.successful_requests + m.error_requests + m.canceled_requests : Nat) : ℚ)
             * 100
      else 0,
    canceled_requests := m.canceled_requests }

/-- One target of a run: an abstract name, its payload list, an optional
abstract exception raised while running its controller (for example a setup
failure), and the oracle for its own simulated run. -/
structure TargetSpec where
  name : Nat
  payload : List Unit
  setup : Option Nat
  env : Env

/-- One controller as awaited by asyncio.gather at line 241: either it raises
or it returns the summary of its own run (lines 237-239 with lines 188-224). -/
def run_controller (d : ℚ) (users : Nat) (t : TargetSpec) : Except Nat Summary :=
  match t.setup with
  | some e => Except.error e
  | none => Except.ok (summarize d (make_requests users t.env t.payload).1.metrics)

/-- asyncio.gather at line 241 without return_exceptions: if any awaited
controller raises, the whole gather raises and every result is discarded;
otherwise all results are returned in order.  (The real gather surfaces
whichever exception occurs first in time; the model surfaces the first in
list order, which is immaterial to the claims.) -/
def gatherResults : List (Except Nat Summary) → Except Nat (List Summary)
  | [] => Except.ok []
  | Except.error e :: _ => Except.error e
  | Except.ok a :: rest =>
      match gatherResults rest with
      | Except.error e => Except.error e
      | Except.ok l => Except.ok (a :: l)

/-- run_tests, lines 233-246: gather all controllers, then pair target names
with their summaries (the zip at line 244). -/
def run_tests (d : ℚ) (users : Nat) (targets : List TargetSpec) :
    Except Nat (List (Nat × Summary)) :=
  match gatherResults (targets.map (run_controller d users)) with
  | Except.error e => Except.error e
  | Except.ok sums => Except.ok ((targets.map fun t => t.name).zip sums)

/-- Concrete oracle for witnesses: every request raises a RequestError, the
scheduler never reports completions, the stop event is set from instant 3,
and the deadline is instant 2 (so the loop runs one two-payload cycle). -/
def envA : Env :=
  { transport := fun _ => .requestError false,
    doneFlag := fun _ _ => false,
    finalDone := fun _ => false,
    stopAt := 3,
    endTime := 2 }

/-- Concrete oracle for the stop-signal counterexample: the stop event fires
at instant 1, between the first and second task creation of the first payload
cycle of a run whose deadline is instant 10. -/
def envC5 : Env :=
  { transport := fun _ => .requestError false,
    doneFlag := fun _ _ => false,
    finalDone := fun _ => false,
    stopAt := 1,
    endTime := 10 }

/-- A target whose controller completes normally. -/
def targetGood : TargetSpec := ⟨2, [()], none, envA⟩

/-- A target whose controller raises (abstract exception code 7). -/
def targetBad : TargetSpec := ⟨1, [()], some 7, envA⟩

/-- Every branch of process_response performs exactly one counter increment. -/
theorem outcomeCount_process (r : Except Unit (Option Resp)) (m : Metrics) :
    outcomeCount (process_response r m) = outcomeCount m + 1 := by
  rcases r with e | v
  · simp [process_response, outcomeCount]; omega
  · rcases v with _ | resp
    · simp [process_response, outcomeCount]; omega
    · by_cases h : resp.status_code = 200 <;>
        simp [process_response, outcomeCount, h] <;> omega

/-- Folding process_response over a list of done tasks adds exactly one
increment per task. -/
theorem outcomeCount_processList (ts : List ReqTask) :
    ∀ m : Metrics, outcomeCount (processList ts m) = outcomeCount m + ts.length := by
  induction ts with
  | nil => intro m; simp [processList]
  | cons t ts ih =>
      intro m
      simp only [processList, ih, outcomeCount_process, List.length_cons]
      omega

/-- A Boolean predicate partitions a list: the filtered part and its
complement together have the length of the list. -/
theorem filter_length_partition (p : ReqTask → Bool) (l : List ReqTask) :
    (l.filter p).length + (l.filter fun t => ! p t).length = l.length := by
  induction l with
  | nil => simp
  | cons t ts ih =>
      by_cases h : p t <;> simp [List.filter_cons, h] <;> omega

/-- splitTasks is a partition: done and pending sum to the original length. -/
theorem splitTasks_length (f : Nat → Bool) (l : List ReqTask) :
    (splitTasks f l).1.length + (splitTasks f l).2.length = l.length := by
  unfold splitTasks
  by_cases h : (l.filter fun t => f t.id).isEmpty
  · simp only [h, if_true, List.length_take, List.length_drop]
    omega
  · simp only [h, if_false]
    exact filter_length_partition (fun t => f t.id) l

/-- FIRST_COMPLETED semantics: for a nonempty task list the done part of the
split is nonempty. -/
theorem splitTasks_fst_pos (f : Nat → Bool) (l : List ReqTask) (h : l ≠ []) :
    1 ≤ (splitTasks f l).1.length := by
  have hl : 0 < l.length := List.length_pos.mpr h
  unfold splitTasks
  split
  · simp only [List.length_take]
    omega
  · rename_i he
    have hne : l.filter (fun t => f t.id) ≠ [] := by
      intro hnil
      rw [hnil] at he
      simp at he
    simpa using List.length_pos.mpr hne

/-- Waiting for a slot never changes how many tasks were created. -/
theorem spawnWait_created (users : Nat) (env : Env) (s : St) :
    (spawnWait users env s).created = s.created := by
  unfold spawnWait; split <;> rfl

/-- Waiting for a slot does not advance the logical clock. -/
theorem spawnWait_clock (users : Nat) (env : Env) (s : St) :
    (spawnWait users env s).clock = s.clock := by
  unfold spawnWait; split <;> rfl

/-- Waiting for a slot conserves increments plus in-flight tasks: every task
removed from the list is folded into the metrics exactly once. -/
theorem spawnWait_count (users : Nat) (env : Env) (s : St) :
    outcomeCount (spawnWait users env s).metrics + (spawnWait users env s).tasks.length
      = outcomeCount s.metrics + s.tasks.length := by
  unfold spawnWait
  by_cases hc : users ≤ s.tasks.length
  · simp only [if_pos hc, outcomeCount_processList]
    have := splitTasks_length (env.doneFlag s.waits) s.tasks
    omega
  · simp only [if_neg hc]

/-- One loop iteration conserves increments plus in-flight tasks against the
number of created tasks. -/
theorem spawnOne_count (users : Nat) (env : Env) (c : Nat) (s : St)
    (h : outcomeCount s.metrics + s.tasks.length = s.created) :
    outcomeCount (spawnOne users env c s).1.metrics
      + (spawnOne users env c s).1.tasks.length
      = (spawnOne users env c s).1.created := by
  have hw := spawnWait_count users env s
  have hcr := spawnWait_created users env s
  simp only [spawnOne, pushTask, List.length_append, List.length_cons, List.length_nil]
  omega

/-- A whole payload cycle conserves increments plus in-flight tasks. -/
theorem spawnCycle_count (users : Nat) (env : Env) (c : Nat) (ps : List Unit) :
    ∀ s : St, outcomeCount s.metrics + s.tasks.length = s.created →
      outcomeCount (spawnCycle users env c ps s).1.metrics
        + (spawnCycle users env c ps s).1.tasks.length
        = (spawnCycle users env c ps s).1.created := by
  induction ps with
  | nil => intro s h; simpa [spawnCycle] using h
  | cons p ps ih =>
      intro s h
      simpa only [spawnCycle] using ih _ (spawnOne_count users env c s h)

/-- The whole admission loop conserves increments plus in-flight tasks. -/
theorem mainLoop_count (users : Nat) (env : Env) (payload : List Unit) :
    ∀ (fuel : Nat) (s : St), outcomeCount s.metrics + s.tasks.length = s.created →
      outcomeCount (mainLoop users env payload fuel s).1.metrics
        + (mainLoop users env payload fuel s).1.tasks.length
        = (mainLoop users env payload fuel s).1.created := by
  intro fuel
  induction fuel with
  | zero => intro s h; simpa [mainLoop] using h
  | succ n ih =>
      intro s h
      rw [mainLoop]
      split
      · exact ih _ (spawnCycle_count users env s.clock payload s h)
      · exact h

/-- The cancellation loop at lines 177-180 adds one canceled increment per
task that is not yet done. -/
theorem drainCancel_count (env : Env) (ts : List ReqTask) :
    ∀ m : Metrics, outcomeCount (drainCancel env ts m)
      = outcomeCount m + (ts.filter fun t => ! env.finalDone t.id).length := by
  induction ts with
  | nil => intro m; simp [drainCancel]
  | cons t ts ih =>
      intro m
      simp only [drainCancel]
      by_cases h : env.finalDone t.id
      · rw [if_pos h, ih m]
        simp [List.filter_cons, h]
      · rw [if_neg h, ih]
        simp only [List.filter_cons, h]
        simp [outcomeCount]
        omega

/-- The processing loop at lines 183-186 adds one increment per done task. -/
theorem drainProcess_count (env : Env) (ts : List ReqTask) :
    ∀ m : Metrics, outcomeCount (drainProcess env ts m)
      = outcomeCount m + (ts.filter fun t => env.finalDone t.id).length := by
  induction ts with
  | nil => intro m; simp [drainProcess]
  | cons t ts ih =>
      intro m
      simp only [drainProcess]
      by_cases h : env.finalDone t.id
      · rw [if_pos h, ih, outcomeCount_process]
        simp only [List.filter_cons, h]
        simp
        omega
      · rw [if_neg h, ih m]
        simp [List.filter_cons, h]

/-- The drain phase counts every remaining in-flight task exactly once:
either as canceled (not yet done at line 177) or through process_response
(done and not cancelled, line 186). -/
theorem drain_count (env : Env) (s : St) :
    outcomeCount (drain env s).metrics = outcomeCount s.metrics + s.tasks.length := by
  simp only [drain, drainProcess_count, drainCancel_count]
  have := filter_length_partition (fun t => env.finalDone t.id) s.tasks
  omega

/-- End-to-end conservation for one simulated run: the total number of
counter increments equals the number of chat_stream tasks created. -/
theorem run_conservation (users : Nat) (env : Env) (payload : List Unit) :
    outcomeCount (make_requests users env payload).1.metrics
      = (make_requests users env payload).1.created := by
  have h0 : outcomeCount initSt.metrics + initSt.tasks.length = initSt.created := by
    simp [initSt, initMetrics, outcomeCount]
  have h1 := mainLoop_count users env payload env.endTime initSt h0
  simp only [make_requests, drain_count]
  have hcr : (drain env (mainLoop users env payload env.endTime initSt).1).created
      = (mainLoop users env payload env.endTime initSt).1.created := rfl
  omega

/-- Waiting for a slot leaves strictly fewer in-flight tasks than the limit
whenever the limit is positive and was respected before. -/
theorem spawnWait_len (users : Nat) (env : Env) (s : St)
    (hu : 1 ≤ users) (hs : s.tasks.length ≤ users) :
    (spawnWait users env s).tasks.length + 1 ≤ users := by
  unfold spawnWait
  by_cases hc : users ≤ s.tasks.length
  · simp only [if_pos hc]
    have hne : s.tasks ≠ [] := by
      intro h
      rw [h] at hc
      simp at hc
      omega
    have h1 := splitTasks_fst_pos (env.doneFlag s.waits) s.tasks hne
    have h2 := splitTasks_length (env.doneFlag s.waits) s.tasks
    omega
  · simp only [if_neg hc]
    omega

/-- One loop iteration keeps the tasks list within the user limit, and the
trace event it emits records an in-flight size within the limit. -/
theorem spawnOne_len (users : Nat) (env : Env) (c : Nat) (s : St)
    (hu : 1 ≤ users) (hs : s.tasks.length ≤ users) :
    (spawnOne users env c s).1.tasks.length ≤ users
      ∧ (spawnOne users env c s).2.inflightAfter ≤ users := by
  have hw := spawnWait_len users env s hu hs
  constructor
  · simp only [spawnOne, pushTask, List.length_append, List.length_cons, List.length_nil]
    omega
  · simpa only [spawnOne] using hw

/-- A payload cycle keeps the tasks list within the user limit, and every
event it emits records an in-flight size within the limit. -/
theorem spawnCycle_len (users : Nat) (env : Env) (c : Nat) (ps : List Unit)
    (hu : 1 ≤ users) :
    ∀ s : St, s.tasks.length ≤ users →
      (spawnCycle users env c ps s).1.tasks.length ≤ users
        ∧ ∀ ev ∈ (spawnCycle users env c ps s).2, ev.inflightAfter ≤ users := by
  induction ps with
  | nil =>
      intro s hs
      exact ⟨hs, by simp [spawnCycle]⟩
  | cons p ps ih =>
      intro s hs
      have h1 := spawnOne_len users env c s hu hs
      have h2 := ih (spawnOne users env c s).1 h1.1
      refine ⟨by simpa only [spawnCycle] using h2.1, ?_⟩
      intro ev hev
      simp only [spawnCycle, List.mem_cons] at hev
      rcases hev with hev | hev
      · rw [hev]; exact h1.2
      · exact h2.2 ev hev

/-- The admission loop keeps every recorded in-flight size within the user
limit. -/
theorem mainLoop_len (users : Nat) (env : Env) (payload : List Unit)
    (hu : 1 ≤ users) :
    ∀ (fuel : Nat) (s : St), s.tasks.length ≤ users →
      ∀ ev ∈ (mainLoop users env payload fuel s).2, ev.inflightAfter ≤ users := by
  intro fuel
  induction fuel with
  | zero => intro s hs ev hev; simp [mainLoop] at hev
  | succ n ih =>
      intro s hs ev hev
      rw [mainLoop] at hev
      split at hev
      · simp only [List.mem_append] at hev
        have hc := spawnCycle_len users env s.clock payload hu s hs
        rcases hev with hev | hev
        · exact hc.2 ev hev
        · exact ih (bumpClock (spawnCycle users env s.clock payload s).1)
            (by simpa only [bumpClock] using hc.1) ev hev
      · simp at hev

/-- Every event emitted during one payload cycle carries the clock value at
which that cycle began. -/
theorem spawnCycle_cycleStart (users : Nat) (env : Env) (c : Nat) (ps : List Unit) :
    ∀ s : St, ∀ ev ∈ (spawnCycle users env c ps s).2, ev.cycleStart = c := by
  induction ps with
  | nil => intro s ev hev; simp [spawnCycle] at hev
  | cons p ps ih =>
      intro s ev hev
      simp only [spawnCycle, List.mem_cons] at hev
      rcases hev with hev | hev
      · rw [hev]; rfl
      · exact ih _ ev hev

/-- Every task creation belongs to a cycle whose starting while-test at line
162 observed the stop event unset and the deadline unexpired. -/
theorem mainLoop_cycleStart (users : Nat) (env : Env) (payload : List Unit) :
    ∀ (fuel : Nat) (s : St), ∀ ev ∈ (mainLoop users env payload fuel s).2,
      ev.cycleStart < env.stopAt ∧ ev.cycleStart < env.endTime := by
  intro fuel
  induction fuel with
  | zero => intro s ev hev; simp [mainLoop] at hev
  | succ n ih =>
      intro s ev hev
      rw [mainLoop] at hev
      split at hev
      · rename_i hcond
        simp only [List.mem_append] at hev
        rcases hev with hev | hev
        · have := spawnCycle_cycleStart users env s.clock payload s ev hev
          rw [this]
          exact hcond
        · exact ih _ ev hev
      · simp at hev

/-- Lines 121-123 read off as an equation: processing one task value appends
exactly the latency samples of a status 200 response (one sample) and nothing
otherwise, and increments the success counter by exactly the number of
samples appended. -/
theorem process_response_latency (r : Except Unit (Option Resp)) (m : Metrics) :
    (process_response r m).successful_requests
        = m.successful_requests + (successLatency r).length
      ∧ (process_response r m).response_times
        = m.response_times ++ successLatency r := by
  rcases r with e | v
  · simp [process_response, successLatency]
  · rcases v with _ | resp
    · simp [process_response, successLatency]
    · by_cases h : resp.status_code = 200 <;>
        simp [process_response, successLatency, h]

/-- Folding done tasks into the metrics preserves the lockstep between the
success counter and the number of recorded latencies. -/
theorem processList_lockstep (ts : List ReqTask) :
    ∀ m : Metrics, m.successful_requests = m.response_times.length →
      (processList ts m).successful_requests = (processList ts m).response_times.length := by
  induction ts with
  | nil => intro m h; simpa [processList] using h
  | cons t ts ih =>
      intro m h
      simp only [processList]
      apply ih
      have hp := process_response_latency t.res m
      rw [hp.1, hp.2, List.length_append, h]

/-- Waiting for a slot preserves the success-latency lockstep. -/
theorem spawnWait_lockstep (users : Nat) (env : Env) (s : St)
    (h : s.metrics.successful_requests = s.metrics.response_times.length) :
    (spawnWait users env s).metrics.successful_requests
      = (spawnWait users env s).metrics.response_times.length := by
  unfold spawnWait
  split
  · exact processList_lockstep _ s.metrics h
  · exact h

/-- One loop iteration preserves the success-latency lockstep (the task
creation itself does not touch the metrics). -/
theorem spawnOne_lockstep (users : Nat) (env : Env) (c : Nat) (s : St)
    (h : s.metrics.successful_requests = s.metrics.response_times.length) :
    (spawnOne users env c s).1.metrics.successful_requests
      = (spawnOne users env c s).1.metrics.response_times.length := by
  simpa only [spawnOne, pushTask] using spawnWait_lockstep users env s h

/-- A payload cycle preserves the success-latency lockstep. -/
theorem spawnCycle_lockstep (users : Nat) (env : Env) (c : Nat) (ps : List Unit) :
    ∀ s : St, s.metrics.successful_requests = s.metrics.response_times.length →
      (spawnCycle users env c ps s).1.metrics.successful_requests
        = (spawnCycle users env c ps s).1.metrics.response_times.length := by
  induction ps with
  | nil => intro s h; simpa [spawnCycle] using h
  | cons p ps ih =>
      intro s h
      simpa only [spawnCycle] using ih _ (spawnOne_lockstep users env c s h)

/-- The admission loop preserves the success-latency lockstep. -/
theorem mainLoop_lockstep (users : Nat) (env : Env) (payload : List Unit) :
    ∀ (fuel : Nat) (s : St), s.metrics.successful_requests = s.metrics.response_times.length →
      (mainLoop users env payload fuel s).1.metrics.successful_requests
        = (mainLoop users env payload fuel s).1.metrics.response_times.length := by
  intro fuel
  induction fuel with
  | zero => intro s h; simpa [mainLoop] using h
  | succ n ih =>
      intro s h
      rw [mainLoop]
      split
      · exact ih _ (by
          simpa only [bumpClock] using spawnCycle_lockstep users env s.clock payload s h)
      · exact h

/-- The cancellation loop at lines 177-180 touches neither the success
counter nor the latency samples. -/
theorem drainCancel_keeps (env : Env) (ts : List ReqTask) :
    ∀ m : Metrics, (drainCancel env ts m).successful_requests = m.successful_requests
      ∧ (drainCancel env ts m).response_times = m.response_times := by
  induction ts with
  | nil => intro m; simp [drainCancel]
  | cons t ts ih =>
      intro m
      simp only [drainCancel]
      by_cases h : env.finalDone t.id
      · rw [if_pos h]; exact ih m
      · rw [if_neg h]
        have := ih { m with canceled_requests := m.canceled_requests + 1 }
        simpa using this

/-- The processing loop at lines 183-186 preserves the success-latency
lockstep. -/
theorem drainProcess_lockstep (env : Env) (ts : List ReqTask) :
    ∀ m : Metrics, m.successful_requests = m.response_times.length →
      (drainProcess env ts m).successful_requests
        = (drainProcess env ts m).response_times.length := by
  induction ts with
  | nil => intro m h; simpa [drainProcess] using h
  | cons t ts ih =>
      intro m h
      simp only [drainProcess]
      by_cases hd : env.finalDone t.id
      · rw [if_pos hd]
        apply ih
        have hp := process_response_latency t.res m
        rw [hp.1, hp.2, List.length_append, h]
      · rw [if_neg hd]
        exact ih m h

/-- End-to-end lockstep for one simulated run: the final success counter
equals the number of recorded latency samples. -/
theorem run_lockstep (users : Nat) (env : Env) (payload : List Unit) :
    (make_requests users env payload).1.metrics.successful_requests
      = (make_requests users env payload).1.metrics.response_times.length := by
  have h0 : initSt.metrics.successful_requests = initSt.metrics.response_times.length := rfl
  have h1 := mainLoop_lockstep users env payload env.endTime initSt h0
  have hk := drainCancel_keeps env (mainLoop users env payload env.endTime initSt).1.tasks
    (mainLoop users env payload env.endTime initSt).1.metrics
  simp only [make_requests, drain]
  apply drainProcess_lockstep
  rw [hk.1, hk.2, h1]

/-- A controller whose setup does not raise returns the summary of its own
simulated run. -/
theorem run_controller_ok (d : ℚ) (users : Nat) (t : TargetSpec) (h : t.setup = none) :
    run_controller d users t
      = Except.ok (summarize d (make_requests users t.env t.payload).1.metrics) := by
  simp [run_controller, h]

/-- When no controller raises, gather returns every summary in order. -/
theorem gatherResults_ok (d : ℚ) (users : Nat) :
    ∀ l : List TargetSpec, (∀ t ∈ l, t.setup = none) →
      gatherResults (l.map (run_controller d users))
        = Except.ok (l.map fun t => summarize d (make_requests users t.env t.payload).1.metrics) := by
  intro l
  induction l with
  | nil => intro _; rfl
  | cons t ts ih =>
      intro h
      have ht : t.setup = none := h t (List.mem_cons_self t ts)
      have hts : ∀ x ∈ ts, x.setup = none := fun x hx => h x (List.mem_cons_of_mem t hx)
      simp only [List.map_cons, run_controller_ok d users t ht, gatherResults, ih hts]

/-- Zipping a list of names with a list of values computed from the same
underlying list pairs each element with its own value. -/
theorem zip_map_pair (l : List TargetSpec) (g : TargetSpec → Summary) :
    (l.map fun t => t.name).zip (l.map g) = l.map fun t => (t.name, g t) := by
  induction l with
  | nil => rfl
  | cons t ts ih => simp [List.zip_cons_cons, ih]

/-- C1, counterexample: a request attempt whose local per-request timeout
elapses (TransportResult.requestError true, i.e. httpx.TimeoutException) is
NOT counted in the error counter with the cancelled counter untouched, as the
claim states; evaluated from the initial metrics, the error counter stays at
zero and the canceled counter becomes one, because chat_stream returns None
for a timeout (line 109) and process_response maps None to the canceled
counter (lines 126-127). -/
theorem C1_counterexample :
    ¬ ((process_response (chat_stream (.requestError true)) initMetrics).error_requests
          = initMetrics.error_requests + 1
        ∧ (process_response (chat_stream (.requestError true)) initMetrics).canceled_requests
          = initMetrics.canceled_requests) := by
  decide

/-- C1, amended: for every request attempt that raises httpx.RequestError,
including a local timeout that elapses before the global deadline,
chat_stream returns None, and process_response counts the attempt in the
canceled counter, leaving the error counter (which counts non-200 responses
and unexpected exceptions) unchanged. -/
theorem C1_amended (isTimeout : Bool) (m : Metrics) :
    chat_stream (.requestError isTimeout) = Except.ok none
      ∧ process_response (chat_stream (.requestError isTimeout)) m
          = { m with canceled_requests := m.canceled_requests + 1 } :=
  ⟨rfl, rfl⟩

/-- C2: for every simulated run of make_requests with a positive user limit
(and parameters under which the source does not abort on an empty
asyncio.wait set: nonempty payload, stop signal and deadline not already
expired at start), the total number of counter increments performed over the
whole run, successful plus error plus canceled, equals the number of
chat_stream request tasks created: every task is counted exactly once,
none twice and none lost. -/
theorem C2_conservation (users : Nat) (env : Env) (payload : List Unit)
    (_hu : 1 ≤ users) (_hp : payload ≠ []) (_hs : 0 < env.stopAt) (_he : 0 < env.endTime) :
    (make_requests users env payload).1.metrics.successful_requests
        + (make_requests users env payload).1.metrics.error_requests
        + (make_requests users env payload).1.metrics.canceled_requests
      = (make_requests users env payload).1.created :=
  run_conservation users env payload

/-- Witness for C2 at a concrete run: two tasks created, two increments. -/
theorem C2_witness :
    (make_requests 2 envA [(), ()]).1.metrics.successful_requests
        + (make_requests 2 envA [(), ()]).1.metrics.error_requests
        + (make_requests 2 envA [(), ()]).1.metrics.canceled_requests
      = (make_requests 2 envA [(), ()]).1.created :=
  C2_conservation 2 envA [(), ()] (by decide) (by decide) (by decide) (by decide)

/-- C3, counterexample: with two targets, the first of which raises while
running its controller (abstract exception 7) and the second of which runs
normally, run_tests returns the exception and collects no summary at all, in
particular not the summary of the second target (which C3_witness shows is
obtained when that target runs alone): asyncio.gather at line 241 propagates
the exception and discards every result, so an exception in one controller
does prevent collection of the other Summaries. -/
theorem C3_counterexample :
    run_tests 1 1 [targetBad, targetGood] = Except.error 7 := rfl

/-- C3, amended: each controller computes its summary from its own run alone
(so counters are independent across targets), and when no controller raises,
run_tests collects and reports every summary, each target paired with the
summary of its own run; but an exception raised by any one controller
propagates through asyncio.gather and prevents collection of every
summary. -/
theorem C3_amended (d : ℚ) (users : Nat) (targets : List TargetSpec)
    (h : ∀ t ∈ targets, t.setup = none) :
    run_tests d users targets
      = Except.ok (targets.map fun t =>
          (t.name, summarize d (make_requests users t.env t.payload).1.metrics)) := by
  unfold run_tests
  rw [gatherResults_ok d users targets h]
  exact congrArg Except.ok
    (zip_map_pair targets fun t => summarize d (make_requests users t.env t.payload).1.metrics)

/-- Witness for C3 at a concrete all-ok run. -/
theorem C3_witness :
    run_tests 1 1 [targetGood]
      = Except.ok [(targetGood.name,
          summarize 1 (make_requests 1 targetGood.env targetGood.payload).1.metrics)] :=
  C3_amended 1 1 [targetGood] (by decide)

/-- C4: for every simulated run with a positive user limit, every task
creation recorded in the trace leaves at most users tasks in flight: the
number of simultaneously in-flight request tasks never exceeds the
configured concurrency limit.  (Between creations the tasks list only
shrinks, at the asyncio.wait pruning, so the recorded sizes dominate the
in-flight count at every point of the run.) -/
theorem C4_bound (users : Nat) (env : Env) (payload : List Unit) (hu : 1 ≤ users) :
    ∀ ev ∈ (make_requests users env payload).2, ev.inflightAfter ≤ users := by
  intro ev hev
  have h0 : initSt.tasks.length ≤ users := by simp [initSt]
  exact mainLoop_len users env payload hu env.endTime initSt h0 ev hev

/-- Witness for C4: the second creation of the concrete run leaves two tasks
in flight, within the limit of two. -/
theorem C4_witness : (⟨1, 0, 1, 2⟩ : Ev).inflightAfter ≤ 2 :=
  C4_bound 2 envA [(), ()] (by decide) ⟨1, 0, 1, 2⟩ (by decide)

/-- C5, counterexample: in the concrete run driven by envC5 the stop event
fires at instant 1, between the two task creations of the first payload
cycle, yet a task is still created at instant 1 with the signal already set:
the controller does not stop admitting at the signal, it finishes the cycle
in progress, so it is false that no request is admitted after the signal
fires. -/
theorem C5_counterexample :
    envC5.stopAt ≤ 1
      ∧ (⟨1, 0, 1, 2⟩ : Ev) ∈ (make_requests 2 envC5 [(), ()]).2
      ∧ ¬ (∀ ev ∈ (make_requests 2 envC5 [(), ()]).2, ev.time < envC5.stopAt) := by
  refine ⟨by decide, by decide, by decide⟩

/-- C5, amended: make_requests observes the stop signal only at the start of
each payload cycle (the while test at line 162): every task creation belongs
to a cycle whose starting test found the signal unset and the deadline
unexpired, so the payloads remaining in a cycle already in progress are still
admitted after the signal fires mid-cycle; no new cycle starts after the
signal is observed, the drain phase then cancels still-pending work, and
every in-flight request still resolves to a terminal outcome that is counted
exactly once (increments equal created tasks). -/
theorem C5_amended (users : Nat) (env : Env) (payload : List Unit)
    (_hu : 1 ≤ users) (_hp : payload ≠ []) (_hs : 0 < env.stopAt) (_he : 0 < env.endTime) :
    (∀ ev ∈ (make_requests users env payload).2,
        ev.cycleStart < env.stopAt ∧ ev.cycleStart < env.endTime)
      ∧ outcomeCount (make_requests users env payload).1.metrics
          = (make_requests users env payload).1.created := by
  constructor
  · intro ev hev
    exact mainLoop_cycleStart users env payload env.endTime initSt ev hev
  · exact run_conservation users env payload

/-- Witness for C5 at a concrete run: the first creation of the envA run
belongs to a cycle that started before the signal and the deadline, and the
run counts both created tasks. -/
theorem C5_witness :
    ((⟨0, 0, 0, 1⟩ : Ev).cycleStart < envA.stopAt
        ∧ (⟨0, 0, 0, 1⟩ : Ev).cycleStart < envA.endTime)
      ∧ outcomeCount (make_requests 2 envA [(), ()]).1.metrics
          = (make_requests 2 envA [(), ()]).1.created :=
  ⟨(C5_amended 2 envA [(), ()] (by decide) (by decide) (by decide) (by decide)).1
      ⟨0, 0, 0, 1⟩ (by decide),
   (C5_amended 2 envA [(), ()] (by decide) (by decide) (by decide) (by decide)).2⟩

/-- C6: for every simulated run, the requests_per_second field of the
summary equals the successful-request count divided by the configured test
duration d (the divisor at line 195 is self.test_duration, independent of
the elapsed behaviour of the run encoded in env), and it equals zero when
there are no successes. -/
theorem C6_throughput (d : ℚ) (users : Nat) (env : Env) (payload : List Unit)
    (_hu : 1 ≤ users) :
    (summarize d (make_requests users env payload).1.metrics).requests_per_second
        = ((make_requests users env payload).1.metrics.successful_requests : ℚ) / d
      ∧ ((make_requests users env payload).1.metrics.successful_requests = 0 →
          (summarize d (make_requests users env payload).1.metrics).requests_per_second = 0) := by
  have hls := run_lockstep users env payload
  constructor
  · by_cases h : (make_requests users env payload).1.metrics.response_times = []
    · have h0 : (make_requests users env payload).1.metrics.successful_requests = 0 := by
        rw [hls, h]; rfl
      simp [summarize, h, h0]
    · simp [summarize, h]
  · intro h0
    have hlen : (make_requests users env payload).1.metrics.response_times.length = 0 := by
      rw [← hls]; exact h0
    have h : (make_requests users env payload).1.metrics.response_times = [] :=
      List.eq_nil_of_length_eq_zero hlen
    simp [summarize, h]

/-- Witness for C6 at a concrete run with zero successes. -/
theorem C6_witness :
    (summarize 5 (make_requests 2 envA [(), ()]).1.metrics).requests_per_second
      = ((make_requests 2 envA [(), ()]).1.metrics.successful_requests : ℚ) / 5 :=
  (C6_throughput 5 2 envA [(), ()] (by decide)).1

/-- C7: the latency collection receives exactly the elapsed durations of
status 200 responses (one sample appended per Success outcome, nothing for
any other outcome), and for every simulated run with zero successes the
summary fields avg_response_time, min_response_time and max_response_time
are all zero, with no error raised (the model is total; the guards at lines
199-209 shield the empty list). -/
theorem C7_latency_stats :
    (∀ (result : Except Unit (Option Resp)) (m : Metrics),
        (process_response result m).response_times
          = m.response_times ++ successLatency result)
      ∧ ∀ (d : ℚ) (users : Nat) (env : Env) (payload : List Unit), 1 ≤ users →
          (make_requests users env payload).1.metrics.successful_requests = 0 →
          (summarize d (make_requests users env payload).1.metrics).avg_response_time = 0
            ∧ (summarize d (make_requests users env payload).1.metrics).min_response_time = 0
            ∧ (summarize d (make_requests users env payload).1.metrics).max_response_time = 0 := by
  constructor
  · intro result m
    exact (process_response_latency result m).2
  · intro d users env payload hu h0
    have hls := run_lockstep users env payload
    have hlen : (make_requests users env payload).1.metrics.response_times.length = 0 := by
      rw [← hls]; exact h0
    have h : (make_requests users env payload).1.metrics.response_times = [] :=
      List.eq_nil_of_length_eq_zero hlen
    refine ⟨?_, ?_, ?_⟩ <;> simp [summarize, h]

/-- Witness for C7 at a concrete run with zero successes. -/
theorem C7_witness :
    (summarize 5 (make_requests 2 envA [(), ()]).1.metrics).avg_response_time = 0
      ∧ (summarize 5 (make_requests 2 envA [(), ()]).1.metrics).min_response_time = 0
      ∧ (summarize 5 (make_requests 2 envA [(), ()]).1.metrics).max_response_time = 0 :=
  C7_latency_stats.2 5 2 envA [(), ()] (by decide) (by decide)

/-- C8: for every metrics accumulator (hence for every run) the
error_percentage field of the summary equals error count divided by
total_requests_sent times 100 when the total is positive and zero when the
total is zero, and it always lies between 0 and 100. -/
theorem C8_error_percentage (d : ℚ) (m : Metrics) :
    (summarize d m).error_percentage
        = (if 0 < m.successful_requests + m.error_requests + m.canceled_requests
           then (m.error_requests : ℚ)
                  / ((m.successful_requests + m.error_requests + m.canceled_requests : Nat) : ℚ)
                  * 100
           else 0)
      ∧ 0 ≤ (summarize d m).error_percentage
      ∧ (summarize d m).error_percentage ≤ 100 := by
  refine ⟨rfl, ?_, ?_⟩
  · by_cases h : 0 < m.successful_requests + m.error_requests + m.canceled_requests
    · simp only [summarize, if_pos h]
      positivity
    · simp [summarize, h]
  · by_cases h : 0 < m.successful_requests + m.error_requests + m.canceled_requests
    · simp only [summarize, if_pos h]
      have he : (m.error_requests : ℚ)
          ≤ ((m.successful_requests + m.error_requests + m.canceled_requests : Nat) : ℚ) := by
        exact_mod_cast (by omega :
          m.error_requests ≤ m.successful_requests + m.error_requests + m.canceled_requests)
      have ht : (0 : ℚ)
          < ((m.successful_requests + m.error_requests + m.canceled_requests : Nat) : ℚ) := by
        exact_mod_cast h
      calc (m.error_requests : ℚ)
            / ((m.successful_requests + m.error_requests + m.canceled_requests : Nat) : ℚ) * 100
          ≤ 1 * 100 := by
            apply mul_le_mul_of_nonneg_right _ (by norm_num)
            exact (div_le_one ht).mpr he
        _ = 100 := by norm_num
    · simp [summarize, h]

/-- C9: for every metrics accumulator (hence for every run and every
target), the total_requests_sent field of the summary is the sum of the
successful, error and canceled counters, exactly as computed at lines
188-192 and returned at line 217. -/
theorem C9_total (d : ℚ) (m : Metrics) :
    (summarize d m).total_requests_sent
      = m.successful_requests + m.error_requests + m.canceled_requests := rfl

/-- C10: the success counter and the latency collection move in lockstep:
processing one task value increments the success counter by exactly the
number of latency samples it appends (one for a Success outcome, zero
otherwise), and at the end of every simulated run the success counter equals
the number of stored latency samples. -/
theorem C10_lockstep :
    (∀ (result : Except Unit (Option Resp)) (m : Metrics),
        (process_response result m).successful_requests
            = m.successful_requests + (successLatency result).length
          ∧ (process_response result m).response_times
            = m.response_times ++ successLatency result
          ∧ (successLatency result).length ≤ 1)
      ∧ ∀ (users : Nat) (env : Env) (payload : List Unit), 1 ≤ users →
          (make_requests users env payload).1.metrics.successful_requests
            = (make_requests users env payload).1.metrics.response_times.length := by
  constructor
  · intro result m
    refine ⟨(process_response_latency result m).1, (process_response_latency result m).2, ?_⟩
    rcases result with e | v
    · simp [successLatency]
    · rcases v with _ | resp
      · simp [successLatency]
      · by_cases h : resp.status_code = 200 <;> simp [successLatency, h]
  · intro users env payload hu
    exact run_lockstep users env payload

/-- Witness for C10 at a concrete run. -/
theorem C10_witness :
    (make_requests 2 envA [(), ()]).1.metrics.successful_requests
      = (make_requests 2 envA [(), ()]).1.metrics.response_times.length :=
  C10_lockstep.2 2 envA [(), ()] (by decide)
